import Mathlib

set_option maxRecDepth 8192

/-!
Shallow embedding of `obama_generator_pinecone.py` (class
`ObamaRAGGeneratorPinecone`). External services (OpenAI embeddings, the
Pinecone index, and the chat-completion endpoint) are modelled as oracle
functions bundled in a `Clients` structure; a Python exception raised by a
service call is `Except.error`, and a normal return is `Except.ok`. Strings
are Lean `String`s; relevance scores (Python floats) are modelled as exact
rationals, with the f-string `{score:.2f}` formatting reproduced on rationals.
-/

namespace ObamaSpeech

/-- A Python exception value: `ValueError(msg)` or any other exception. -/
inductive PyErr where
  | valueError (msg : String)
  | exc (msg : String)
deriving DecidableEq, Repr

/-- An embedding vector (`List[float]`, modelled with exact rationals). -/
abbrev Vec := List ℚ

/-- One element of `response.data` from `openai.embeddings.create`. -/
structure EmbDatum where
  embedding : Vec
deriving DecidableEq, Repr

/-- The response of `openai.embeddings.create`: a list `data` of embeddings. -/
structure EmbResponse where
  data : List EmbDatum
deriving DecidableEq, Repr

/-- The metadata dict of one Pinecone match: keys `text`, `title`, `date`, `url`. -/
structure MatchMeta where
  text : String
  title : String
  date : String
  url : String
deriving DecidableEq, Repr

/-- One entry of `results['matches']` from `index.query`. -/
structure PMatch where
  metadata : MatchMeta
  score : ℚ
deriving DecidableEq, Repr

/-- The result of `index.query(vector=…, top_k=…, include_metadata=True)`. -/
structure QueryResults where
  «matches» : List PMatch
deriving DecidableEq, Repr

/-- The dict built for each chunk in `search_relevant_speeches`. -/
structure SpeechChunk where
  text : String
  title : String
  date : String
  url : String
  score : ℚ
deriving DecidableEq, Repr

/-- The request `generate` sends to `openai.chat.completions.create`:
model, the single user message content, temperature, and `max_tokens`. -/
structure ChatRequest where
  model : String
  content : String
  temperature : ℚ
  max_tokens : Nat
deriving DecidableEq, Repr

/-- The `message` of a chat choice; its `content` is `Optional[str]` in the client. -/
structure ChatMessage where
  content : Option String
deriving DecidableEq, Repr

/-- One element of `response.choices`. -/
structure ChatChoice where
  message : ChatMessage
deriving DecidableEq, Repr

/-- The response of `openai.chat.completions.create`. -/
structure ChatResponse where
  choices : List ChatChoice
deriving DecidableEq, Repr

/-- The result of `index.describe_index_stats()`. -/
structure Stats where
  total_vector_count : Nat
deriving DecidableEq, Repr

/-- The external service calls the generator performs, as oracle functions.
`Except.error` models the call raising a Python exception. -/
structure Clients where
  embeddingsCreate : String → Except PyErr EmbResponse
  indexQuery : Vec → Nat → Except PyErr QueryResults
  chatCompletionsCreate : ChatRequest → Except PyErr ChatResponse

/-- Method `embed_query`: call `openai.embeddings.create(model=…, input=query)` and
return `response.data[0].embedding`; indexing an empty `data` list raises
`IndexError` (uncaught here, so it propagates as an error). -/
def embed_query (C : Clients) (query : String) : Except PyErr Vec :=
  match C.embeddingsCreate query with
  | .error e => .error e
  | .ok response =>
    match response.data with
    | [] => .error (.exc "IndexError")
    | d :: _ => .ok d.embedding

/-- The dict appended for each match in `search_relevant_speeches`. -/
def matchToChunk (m : PMatch) : SpeechChunk :=
  ⟨m.metadata.text, m.metadata.title, m.metadata.date, m.metadata.url, m.score⟩

/-- Method `search_relevant_speeches(topic, n)`: embed the topic, query Pinecone with
`top_k = n`, and collect one chunk dict per match, in match order. There is no
validation of `topic`. -/
def search_relevant_speeches (C : Clients) (topic : String) (n : Nat) :
    Except PyErr (List SpeechChunk) :=
  match embed_query C topic with
  | .error e => .error e
  | .ok query_embedding =>
    match C.indexQuery query_embedding n with
    | .error e => .error e
    | .ok results => .ok (results.«matches».map matchToChunk)

/-- The lookup `length_instructions.get(length, length_instructions["medium"])`: the
lookup table of `create_prompt` with its `medium` default. -/
def length_instructions_get (length : String) : String :=
  if length = "short" then "Write 1 substantial paragraph (4-6 sentences)."
  else if length = "medium" then "Write 2-3 paragraphs."
  else if length = "long" then
    "Write 5-7 paragraphs with a clear beginning, middle, and end."
  else "Write 2-3 paragraphs."

/-- The f-string field `{score:.2f}`: the score rendered with exactly two
decimal places, rounding to the nearest hundredth; scores are modelled as
exact rationals, and `(200 * q.num + q.den).fdiv (2 * q.den)` is
`⌊100 * q + 1/2⌋`, the integer number of hundredths nearest to `q`. -/
def format2 (q : ℚ) : String :=
  let n : ℤ := (200 * q.num + (q.den : ℤ)).fdiv (2 * (q.den : ℤ))
  let sign := if n < 0 then "-" else ""
  let m := n.natAbs
  let r := m % 100
  sign ++ toString (m / 100) ++ "." ++ (if r < 10 then "0" ++ toString r else toString r)

/-- The literal of the opening f-string of `create_prompt` before
`{len(relevant_chunks)}`. -/
def headerPre : String :=
  "You are tasked with generating a statement in Barack Obama's authentic speaking style.\n\nHere are "

/-- The literal of the opening f-string of `create_prompt` after
`{len(relevant_chunks)}`. -/
def headerSuf : String :=
  " relevant examples of how Barack Obama speaks (retrieved by semantic similarity):\n\n"

/-- The opening f-string of `create_prompt`, parameterised by
`len(relevant_chunks)`. -/
def promptHeader (k : Nat) : String :=
  headerPre ++ (toString k ++ headerSuf)

/-- The f-string appended for chunk number `i` (1-based) in the loop of
`create_prompt`. -/
def chunkBlock (i : Nat) (chunk : SpeechChunk) : String :=
  "\n--- Example " ++ (toString i ++ (": \"" ++ (chunk.title ++ ("\" ("
    ++ (chunk.date ++ (") [Relevance: " ++ (format2 chunk.score ++ ("] ---\n"
    ++ (chunk.text ++ "\n\n")))))))))

/-- The concatenation of the loop iterations of `create_prompt`, with
`enumerate(relevant_chunks, 1)` numbering starting at `i`. -/
def chunkBlocks (i : Nat) : List SpeechChunk → String
  | [] => ""
  | chunk :: rest => chunkBlock i chunk ++ chunkBlocks (i + 1) rest

/-- The literal of the closing f-string of `create_prompt` before `{topic}`. -/
def closingPre : String :=
  "\n--- End of Examples ---\n\nNow, generate a statement in Barack Obama's voice about: \""

/-- The literal of the closing f-string of `create_prompt` between `{topic}`
and the interpolated length instruction: the eight style characteristics. -/
def closingStyle : String :=
  "\"\n\nKey characteristics of Obama's speaking style to emulate:\n• Thoughtful and measured tone, acknowledging complexity\n• Personal stories and connections to everyday Americans\n• Balanced perspective - hopeful while acknowledging real challenges\n• Appeals to shared values and common ground\n• Clear, accessible language with occasional rhetorical flourishes\n• Use of \"we\" and \"our\" to build unity\n• Specific examples and concrete details\n• Inspirational closing that calls people to action\n\n"

/-- The literal of the closing f-string of `create_prompt` after the length
instruction. -/
def closingSuf : String := "\n\nStatement:"

/-- The closing f-string of `create_prompt`: end-of-examples marker, the topic,
the eight style characteristics, the selected length instruction, and the
final `Statement:` cue. -/
def promptClosing (topic : String) (length : String) : String :=
  closingPre ++ (topic ++ (closingStyle ++ (length_instructions_get length ++ closingSuf)))

/-- The prompt text `create_prompt` assembles from the topic, the retrieved
chunks, and the length value. -/
def assemblePrompt (topic : String) (chunks : List SpeechChunk)
    (length : String) : String :=
  promptHeader chunks.length ++ (chunkBlocks 1 chunks ++ promptClosing topic length)

/-- Method `create_prompt(topic, n_examples, length)`: retrieve the relevant chunks
(this is a live call to `search_relevant_speeches`, so its exceptions
propagate), then assemble the prompt string. -/
def create_prompt (C : Clients) (topic : String) (n_examples : Nat)
    (length : String) : Except PyErr String :=
  match search_relevant_speeches C topic n_examples with
  | .error e => .error e
  | .ok relevant_chunks => .ok (assemblePrompt topic relevant_chunks length)

/-- The expression `max_tokens=1000 if length == "long" else 500` in `generate`. -/
def maxTokensOf (length : String) : Nat :=
  if length = "long" then 1000 else 500

/-- Method `generate(topic, length, temperature, model)`: build the prompt (outside
the `try` block, so retrieval exceptions propagate to the caller), then call
the chat endpoint inside `try`; any exception there — including the
`IndexError` from `response.choices[0]` — is caught and `None` is returned;
otherwise `response.choices[0].message.content` is returned as-is. -/
def generate (C : Clients) (topic : String) (length : String)
    (temperature : ℚ) (model : String) : Except PyErr (Option String) :=
  match create_prompt C topic 3 length with
  | .error e => .error e
  | .ok prompt =>
    match C.chatCompletionsCreate ⟨model, prompt, temperature, maxTokensOf length⟩ with
    | .error _ => .ok none
    | .ok response =>
      match response.choices with
      | [] => .ok none
      | choice :: _ => .ok choice.message.content

/-- The expression `argument or os.environ.get(…)` under Python truthiness: an empty-string
argument falls through to the environment value. -/
def resolveKey (arg env : Option String) : Option String :=
  match arg with
  | some s => if s = "" then env else some s
  | none => env

/-- The constructed generator state: the two resolved credentials. -/
structure Generator where
  openai_api_key : String
  pinecone_api_key : String
deriving DecidableEq, Repr

/-- Constructor `ObamaRAGGeneratorPinecone.__init__` given the two key arguments, the two
environment variables, and the outcome of the one `describe_index_stats()`
call made during construction: resolve each key as `argument or environment`,
raise `ValueError` if the resolved key is missing or empty, then perform the
single stats health check, whose exception is printed and re-raised; the
statistics themselves (in particular a zero `total_vector_count`) are only
printed, never checked. -/
def initGenerator (openaiKeyArg pineconeKeyArg envOpenai envPinecone : Option String)
    (describeStats : Except PyErr Stats) : Except PyErr Generator :=
  match resolveKey openaiKeyArg envOpenai with
  | none => .error (.valueError "OpenAI API key required. Set OPENAI_API_KEY environment variable.")
  | some okey =>
    if okey = "" then
      .error (.valueError "OpenAI API key required. Set OPENAI_API_KEY environment variable.")
    else
      match resolveKey pineconeKeyArg envPinecone with
      | none => .error (.valueError "Pinecone API key required. Set PINECONE_API_KEY environment variable.")
      | some pkey =>
        if pkey = "" then
          .error (.valueError "Pinecone API key required. Set PINECONE_API_KEY environment variable.")
        else
          match describeStats with
          | .error e => .error e
          | .ok _stats => .ok ⟨okey, pkey⟩

/-! Concrete fixtures (mock services and data) used by witnesses and
counterexamples. -/

/-- A metadata record as a mocked Pinecone match would carry it. -/
def demoMeta : MatchMeta :=
  ⟨"We the people, in order to form a more perfect union.", "A More Perfect Union",
    "2008-03-18", "https://example.org/speech"⟩

/-- A mocked Pinecone match with score 0.91. -/
def demoMatch : PMatch := ⟨demoMeta, mkRat 91 100⟩

/-- The chunk `search_relevant_speeches` builds from `demoMatch`. -/
def demoChunk : SpeechChunk :=
  ⟨demoMeta.text, demoMeta.title, demoMeta.date, demoMeta.url, mkRat 91 100⟩

/-- A second mocked match with score 0.84. -/
def demoMatch2 : PMatch :=
  ⟨⟨"Yes we can.", "Election Night Victory Speech", "2008-11-04",
    "https://example.org/victory"⟩, mkRat 84 100⟩

/-- The chunk built from `demoMatch2`. -/
def demoChunk2 : SpeechChunk :=
  ⟨"Yes we can.", "Election Night Victory Speech", "2008-11-04",
    "https://example.org/victory", mkRat 84 100⟩

/-- Mocked clients where every service call succeeds: the index returns the
single `demoMatch` and the chat endpoint returns a fixed text. -/
def demoClients : Clients :=
  ⟨fun _ => .ok ⟨[⟨[]⟩]⟩, fun _ _ => .ok ⟨[demoMatch]⟩,
    fun _ => .ok ⟨[⟨⟨some "Generated text."⟩⟩]⟩⟩

/-- Mocked clients whose chat endpoint echoes the request's model field, making
an actual chat invocation observable in the returned value. -/
def echoClients : Clients :=
  ⟨fun _ => .ok ⟨[⟨[]⟩]⟩, fun _ _ => .ok ⟨[demoMatch]⟩,
    fun req => .ok ⟨[⟨⟨some req.model⟩⟩]⟩⟩

/-- Mocked clients whose chat call succeeds but returns no choices at all. -/
def emptyChatClients : Clients :=
  ⟨fun _ => .ok ⟨[⟨[]⟩]⟩, fun _ _ => .ok ⟨[demoMatch]⟩, fun _ => .ok ⟨[]⟩⟩

/-- Mocked clients whose chat call succeeds but whose message content is
absent (`None`). -/
def noneContentClients : Clients :=
  ⟨fun _ => .ok ⟨[⟨[]⟩]⟩, fun _ _ => .ok ⟨[demoMatch]⟩,
    fun _ => .ok ⟨[⟨⟨none⟩⟩]⟩⟩

/-- Mocked clients whose chat call raises (generation service unreachable). -/
def downChatClients : Clients :=
  ⟨fun _ => .ok ⟨[⟨[]⟩]⟩, fun _ _ => .ok ⟨[demoMatch]⟩,
    fun _ => .error (.exc "generation service unreachable")⟩

/-- Mocked clients whose embedding call raises. -/
def downEmbedClients : Clients :=
  ⟨fun _ => .error (.exc "embedding service unreachable"),
    fun _ _ => .ok ⟨[demoMatch]⟩, fun _ => .ok ⟨[⟨⟨some "Generated text."⟩⟩]⟩⟩

/-- Mocked clients whose index query raises. -/
def downIndexClients : Clients :=
  ⟨fun _ => .ok ⟨[⟨[]⟩]⟩, fun _ _ => .error (.exc "index unreachable"),
    fun _ => .ok ⟨[⟨⟨some "Generated text."⟩⟩]⟩⟩

/-- Predicate: `small` occurs verbatim (as a contiguous substring) in `big`. -/
def strOccurs (small big : String) : Prop := ∃ x y, big = x ++ (small ++ y)

/-! Helper lemmas about occurrence in the assembled prompt. -/

theorem strOccurs_append_left (s small big : String) (h : strOccurs small big) :
    strOccurs small (s ++ big) := by
  obtain ⟨x, y, hxy⟩ := h
  exact ⟨s ++ x, y, by rw [hxy, String.append_assoc]⟩

/-- Any fragment of the selected length instruction occurs in the closing
section of the prompt. -/
theorem strOccurs_closing (topic length frag pre suf : String)
    (h : length_instructions_get length = pre ++ (frag ++ suf)) :
    strOccurs frag (promptClosing topic length) :=
  ⟨closingPre ++ (topic ++ (closingStyle ++ pre)), suf ++ closingSuf, by
    simp only [promptClosing, h, String.append_assoc]⟩

/-- Occurrence in the closing section lifts to the whole assembled prompt. -/
theorem strOccurs_prompt_of_closing (topic : String) (chunks : List SpeechChunk)
    (length frag : String) (h : strOccurs frag (promptClosing topic length)) :
    strOccurs frag (assemblePrompt topic chunks length) := by
  obtain ⟨x, y, hxy⟩ := h
  exact ⟨promptHeader chunks.length ++ (chunkBlocks 1 chunks ++ x), y, by
    simp only [assemblePrompt, hxy, String.append_assoc]⟩

/-- C3: the Prompt Builder is deterministic with no hidden inputs: two calls
(even against different live clients) that retrieve the identical chunk list
for the same topic and length produce byte-identical prompt strings, namely
`assemblePrompt topic chunks length`, a pure function of those three inputs. -/
theorem create_prompt_deterministic (C₁ C₂ : Clients) (topic : String)
    (n : Nat) (length : String) (chunks : List SpeechChunk)
    (h₁ : search_relevant_speeches C₁ topic n = .ok chunks)
    (h₂ : search_relevant_speeches C₂ topic n = .ok chunks) :
    create_prompt C₁ topic n length = .ok (assemblePrompt topic chunks length) ∧
    create_prompt C₁ topic n length = create_prompt C₂ topic n length := by
  unfold create_prompt
  rw [h₁, h₂]
  exact ⟨rfl, rfl⟩

/-- Witness for C3 at concrete inputs. -/
theorem create_prompt_deterministic_witness :
    create_prompt demoClients "healthcare" 3 "medium" =
      .ok (assemblePrompt "healthcare" [demoChunk] "medium") ∧
    create_prompt demoClients "healthcare" 3 "medium" =
      create_prompt demoClients "healthcare" 3 "medium" :=
  create_prompt_deterministic demoClients demoClients "healthcare" 3 "medium"
    [demoChunk] rfl rfl

/-- C4: for each recognized length value the assembled prompt contains the
corresponding length instruction verbatim (short → "1 substantial paragraph
(4-6 sentences)", medium → "2-3 paragraphs", long → "5-7 paragraphs with a
clear beginning, middle, and end"), and any other length value falls back to
the medium instruction instead of the builder failing. -/
theorem prompt_length_instruction (topic : String) (chunks : List SpeechChunk)
    (length : String) :
    (length = "short" →
      strOccurs "1 substantial paragraph (4-6 sentences)" (assemblePrompt topic chunks length)) ∧
    (length = "medium" →
      strOccurs "2-3 paragraphs" (assemblePrompt topic chunks length)) ∧
    (length = "long" →
      strOccurs "5-7 paragraphs with a clear beginning, middle, and end"
        (assemblePrompt topic chunks length)) ∧
    (length ≠ "short" → length ≠ "medium" → length ≠ "long" →
      strOccurs "2-3 paragraphs" (assemblePrompt topic chunks length)) := by
  refine ⟨fun h => ?_, fun h => ?_, fun h => ?_, fun h1 h2 h3 => ?_⟩
  · subst h
    exact strOccurs_prompt_of_closing _ _ _ _
      (strOccurs_closing _ _ _ "Write " "." (by decide))
  · subst h
    exact strOccurs_prompt_of_closing _ _ _ _
      (strOccurs_closing _ _ _ "Write " "." (by decide))
  · subst h
    exact strOccurs_prompt_of_closing _ _ _ _
      (strOccurs_closing _ _ _ "Write " "." (by decide))
  · have h : length_instructions_get length = "Write " ++ ("2-3 paragraphs" ++ ".") := by
      simp only [length_instructions_get, if_neg h1, if_neg h2, if_neg h3]
      decide
    exact strOccurs_prompt_of_closing _ _ _ _ (strOccurs_closing _ _ _ "Write " "." h)

/-- Witness for C4: the short instruction at a concrete call, and the medium
fallback for an unrecognized length value. -/
theorem prompt_length_instruction_witness :
    strOccurs "1 substantial paragraph (4-6 sentences)"
      (assemblePrompt "healthcare reform" [demoChunk] "short") ∧
    strOccurs "2-3 paragraphs" (assemblePrompt "hope" [demoChunk] "extra-long") :=
  ⟨(prompt_length_instruction "healthcare reform" [demoChunk] "short").1 rfl,
    (prompt_length_instruction "hope" [demoChunk] "extra-long").2.2.2
      (by decide) (by decide) (by decide)⟩

theorem strOccurs_append_right (small a b : String) (h : strOccurs small a) :
    strOccurs small (a ++ b) := by
  obtain ⟨x, y, hxy⟩ := h
  exact ⟨x, y ++ b, by rw [hxy]; simp only [String.append_assoc]⟩

/-- C8: with an empty chunk list the builder still produces a well-formed
prompt: it is exactly the header followed by the closing sections, the example
section is the empty string (zero blocks), the header states zero examples,
and the end-of-examples marker, the selected length instruction, and the final
cue are all present. -/
theorem prompt_empty_chunks (topic length : String) :
    assemblePrompt topic [] length = promptHeader 0 ++ promptClosing topic length ∧
    chunkBlocks 1 [] = "" ∧
    strOccurs "Here are 0 relevant examples" (assemblePrompt topic [] length) ∧
    strOccurs "--- End of Examples ---" (assemblePrompt topic [] length) ∧
    strOccurs (length_instructions_get length) (assemblePrompt topic [] length) ∧
    strOccurs "\n\nStatement:" (assemblePrompt topic [] length) := by
  have hheader : promptHeader 0 =
      "You are tasked with generating a statement in Barack Obama's authentic speaking style.\n\n"
        ++ ("Here are 0 relevant examples"
        ++ " of how Barack Obama speaks (retrieved by semantic similarity):\n\n") := by
    decide
  have hpre : closingPre = "\n" ++ ("--- End of Examples ---"
      ++ "\n\nNow, generate a statement in Barack Obama's voice about: \"") := by
    decide
  refine ⟨rfl, rfl, ?_, ?_, ?_, ?_⟩
  · exact strOccurs_append_right _ _ _ ⟨_, _, hheader⟩
  · refine strOccurs_prompt_of_closing _ _ _ _ ?_
    exact strOccurs_append_right _ _ _ ⟨_, _, hpre⟩
  · refine strOccurs_prompt_of_closing _ _ _ _ ?_
    refine strOccurs_closing _ _ _ "" "" ?_
    simp only [String.empty_append, String.append_empty]
  · exact strOccurs_prompt_of_closing _ _ _ _
      ⟨closingPre ++ (topic ++ (closingStyle ++ length_instructions_get length)), "", by
        simp only [promptClosing, closingSuf, String.append_assoc, String.append_empty]⟩

/-- C9: the token budget `generate` passes to the chat endpoint is derived
solely from the length category — 1000 when length is "long" and 500 for every
other value — and the chat client is consulted at exactly that request, whose
answer `generate` returns. -/
theorem generate_max_tokens (C : Clients) (topic length model : String)
    (temperature : ℚ) (chunks : List SpeechChunk) (t : Option String)
    (hs : search_relevant_speeches C topic 3 = .ok chunks)
    (hc : C.chatCompletionsCreate
      ⟨model, assemblePrompt topic chunks length, temperature, maxTokensOf length⟩ =
      .ok ⟨[⟨⟨t⟩⟩]⟩) :
    generate C topic length temperature model = .ok t ∧
    maxTokensOf "long" = 1000 ∧ (length ≠ "long" → maxTokensOf length = 500) := by
  refine ⟨?_, rfl, fun h => by simp only [maxTokensOf, if_neg h]⟩
  simp only [generate, create_prompt, hs, hc]

/-- Witness for C9 at concrete inputs. -/
theorem generate_max_tokens_witness :
    generate demoClients "education" "short" (mkRat 7 10) "gpt-4" =
      .ok (some "Generated text.") ∧
    maxTokensOf "long" = 1000 ∧ ("short" ≠ "long" → maxTokensOf "short" = 500) :=
  generate_max_tokens demoClients "education" "short" "gpt-4" (mkRat 7 10)
    [demoChunk] (some "Generated text.") rfl rfl

/-- C10: the prompt (including embedding and retrieval) is built before the
exception-handling region of `generate`: an embedding or index failure
propagates to the caller as the raised exception itself, whereas a failure of
the generation call is converted to the absence value `none` — the two failure
stages are distinguishable by whether an exception escapes. -/
theorem generate_error_stages (C : Clients) (topic length model : String)
    (temperature : ℚ) (e : PyErr) :
    (embed_query C topic = .error e →
      generate C topic length temperature model = .error e) ∧
    (∀ v, embed_query C topic = .ok v → C.indexQuery v 3 = .error e →
      generate C topic length temperature model = .error e) ∧
    (∀ chunks, search_relevant_speeches C topic 3 = .ok chunks →
      C.chatCompletionsCreate
        ⟨model, assemblePrompt topic chunks length, temperature, maxTokensOf length⟩ =
        .error e →
      generate C topic length temperature model = .ok none) := by
  refine ⟨fun h => ?_, fun v hv hq => ?_, fun chunks hs hc => ?_⟩
  · simp only [generate, create_prompt, search_relevant_speeches, h]
  · simp only [generate, create_prompt, search_relevant_speeches, hv, hq]
  · simp only [generate, create_prompt, hs, hc]

/-- Witness for C10: one concrete run per failure stage. -/
theorem generate_error_stages_witness :
    generate downEmbedClients "hope" "medium" 1 "gpt-4" =
      .error (.exc "embedding service unreachable") ∧
    generate downIndexClients "hope" "medium" 1 "gpt-4" =
      .error (.exc "index unreachable") ∧
    generate downChatClients "hope" "medium" 1 "gpt-4" = .ok none :=
  ⟨(generate_error_stages downEmbedClients "hope" "medium" "gpt-4" 1
      (.exc "embedding service unreachable")).1 rfl,
    (generate_error_stages downIndexClients "hope" "medium" "gpt-4" 1
      (.exc "index unreachable")).2.1 [] rfl rfl,
    (generate_error_stages downChatClients "hope" "medium" "gpt-4" 1
      (.exc "generation service unreachable")).2.2 [demoChunk] rfl rfl⟩

/-- C1 counterexample: `generate` with an empty topic and temperature 1.5
returns a successful generation, echoed straight from the chat client (so the
embedding, index, and chat services were all invoked and the out-of-range
temperature was not rejected) — not a `ValueError`. -/
theorem generate_validation_cex :
    generate echoClients "" "medium" (mkRat 3 2) "gpt-4" = .ok (some "gpt-4") := rfl

/-- C1 amended: `generate` performs no input validation: an empty topic is
embedded and retrieved like any other, an arbitrary (also out-of-range)
temperature is placed unchanged in the chat request, and the chat client's
answer is returned. -/
theorem generate_no_validation (C : Clients) (length model : String)
    (temperature : ℚ) (chunks : List SpeechChunk) (t : Option String)
    (hs : search_relevant_speeches C "" 3 = .ok chunks)
    (hc : C.chatCompletionsCreate
      ⟨model, assemblePrompt "" chunks length, temperature, maxTokensOf length⟩ =
      .ok ⟨[⟨⟨t⟩⟩]⟩) :
    generate C "" length temperature model = .ok t := by
  simp only [generate, create_prompt, hs, hc]

/-- Witness for the amended C1: a run with empty topic and temperature 1.5. -/
theorem generate_no_validation_witness :
    generate demoClients "" "medium" (mkRat 3 2) "gpt-4" =
      .ok (some "Generated text.") :=
  generate_no_validation demoClients "medium" "gpt-4" (mkRat 3 2) [demoChunk]
    (some "Generated text.") rfl rfl

/-- C2 counterexample: a successful chat call with no usable text (no choices)
and an unreachable generation service produce the identical return value
`none` — there is no `EmptyResult` sentinel distinguishable from the upstream
failure. -/
theorem generate_empty_vs_error_cex :
    generate emptyChatClients "climate" "medium" 1 "gpt-4" =
      generate downChatClients "climate" "medium" 1 "gpt-4" ∧
    generate emptyChatClients "climate" "medium" 1 "gpt-4" = .ok none :=
  ⟨rfl, rfl⟩

/-- C2 amended: when the chat call succeeds but yields no usable text (no
choices, or an absent message content) `generate` returns `none` without an
exception escaping — but this is the very value returned when the chat call
raises, so the two outcomes are not distinguishable. -/
theorem generate_empty_collapse (C : Clients) (topic length model : String)
    (temperature : ℚ) (chunks : List SpeechChunk) (e : PyErr)
    (hs : search_relevant_speeches C topic 3 = .ok chunks) :
    (C.chatCompletionsCreate
        ⟨model, assemblePrompt topic chunks length, temperature, maxTokensOf length⟩ =
        .ok ⟨[]⟩ →
      generate C topic length temperature model = .ok none) ∧
    (C.chatCompletionsCreate
        ⟨model, assemblePrompt topic chunks length, temperature, maxTokensOf length⟩ =
        .ok ⟨[⟨⟨none⟩⟩]⟩ →
      generate C topic length temperature model = .ok none) ∧
    (C.chatCompletionsCreate
        ⟨model, assemblePrompt topic chunks length, temperature, maxTokensOf length⟩ =
        .error e →
      generate C topic length temperature model = .ok none) := by
  refine ⟨fun hc => ?_, fun hc => ?_, fun hc => ?_⟩ <;>
    simp only [generate, create_prompt, hs, hc]

/-- Witness for the amended C2: each of the three chat outcomes at concrete
inputs. -/
theorem generate_empty_collapse_witness :
    generate emptyChatClients "energy" "medium" 1 "gpt-4" = .ok none ∧
    generate noneContentClients "energy" "medium" 1 "gpt-4" = .ok none ∧
    generate downChatClients "energy" "medium" 1 "gpt-4" = .ok none :=
  ⟨(generate_empty_collapse emptyChatClients "energy" "medium" "gpt-4" 1
      [demoChunk] (.exc "x") rfl).1 rfl,
    (generate_empty_collapse noneContentClients "energy" "medium" "gpt-4" 1
      [demoChunk] (.exc "x") rfl).2.1 rfl,
    (generate_empty_collapse downChatClients "energy" "medium" "gpt-4" 1
      [demoChunk] (.exc "generation service unreachable") rfl).2.2 rfl⟩

/-- C5 counterexample: `search_relevant_speeches` with an empty topic does not
reject the input — it embeds the empty string, queries the index, and returns
the mapped match. -/
theorem search_no_validation_cex :
    search_relevant_speeches demoClients "" 3 = .ok [demoChunk] := rfl

/-- C5 amended: `search_relevant_speeches` performs no topic validation (the
law below holds for every topic, the empty string included); when embedding
and query succeed it returns exactly the index's matches mapped to chunks,
preserving the index order, one chunk per match — hence at most `n` chunks
whenever the index honours `top_k = n`. -/
theorem search_maps_in_order (C : Clients) (topic : String) (n : Nat) (v : Vec)
    (res : QueryResults) (he : embed_query C topic = .ok v)
    (hq : C.indexQuery v n = .ok res) :
    search_relevant_speeches C topic n = .ok (res.«matches».map matchToChunk) ∧
    (res.«matches».map matchToChunk).length = res.«matches».length ∧
    (∀ i (hi : i < res.«matches».length),
      (res.«matches».map matchToChunk).get ⟨i, by simpa using hi⟩ =
        matchToChunk (res.«matches».get ⟨i, hi⟩)) ∧
    (res.«matches».length ≤ n → (res.«matches».map matchToChunk).length ≤ n) := by
  refine ⟨by simp only [search_relevant_speeches, he, hq], by simp,
    fun i hi => by simp, fun h => by simpa using h⟩

/-- Witness for the amended C5 at concrete inputs. -/
theorem search_maps_in_order_witness :
    search_relevant_speeches demoClients "jobs" 3 = .ok [demoChunk] ∧
    [demoChunk].length ≤ 3 :=
  ⟨(search_maps_in_order demoClients "jobs" 3 [] ⟨[demoMatch]⟩ rfl rfl).1,
    (search_maps_in_order demoClients "jobs" 3 [] ⟨[demoMatch]⟩ rfl rfl).2.2.2
      (by decide)⟩

/-- C6 counterexample: construction with an empty index (zero vectors in the
stats) succeeds — the constructor only logs the count, it does not fail fast
on an empty index. -/
theorem init_empty_index_cex :
    initGenerator (some "sk-test") (some "pc-test") none none (.ok ⟨0⟩) =
      .ok ⟨"sk-test", "pc-test"⟩ := rfl

/-- C6 amended: with credentials resolved, construction performs the single
stats health check and fails fast exactly when that call fails (the exception
propagates, so no instance exists for request-time calls); any successful
stats response — an empty index included — lets construction succeed. -/
theorem init_health_check (a p eo ep : Option String) (e : PyErr) (s : Stats)
    (okey pkey : String) (ha : resolveKey a eo = some okey) (hok : okey ≠ "")
    (hp : resolveKey p ep = some pkey) (hpk : pkey ≠ "") :
    initGenerator a p eo ep (.error e) = .error e ∧
    initGenerator a p eo ep (.ok s) = .ok ⟨okey, pkey⟩ := by
  constructor <;> simp only [initGenerator, ha, hp, if_neg hok, if_neg hpk]

/-- Witness for the amended C6: an unreachable index fails construction; a
reachable one succeeds. -/
theorem init_health_check_witness :
    initGenerator (some "sk-test") (some "pc-test") none none
      (.error (.exc "could not connect")) = .error (.exc "could not connect") ∧
    initGenerator (some "sk-test") (some "pc-test") none none (.ok ⟨1024⟩) =
      .ok ⟨"sk-test", "pc-test"⟩ :=
  init_health_check (some "sk-test") (some "pc-test") none none
    (.exc "could not connect") ⟨1024⟩ "sk-test" "pc-test" rfl (by decide) rfl
    (by decide)

/-- Splitting the example section of the prompt at position `i`: the blocks of
the earlier chunks precede chunk `i`'s block, which precedes the blocks of the
later chunks, with `enumerate`-style numbering throughout. -/
theorem chunkBlocks_split (cs : List SpeechChunk) :
    ∀ (i k : Nat) (h : i < cs.length),
    chunkBlocks k cs =
      chunkBlocks k (cs.take i) ++
        (chunkBlock (k + i) (cs.get ⟨i, h⟩) ++
          chunkBlocks (k + i + 1) (cs.drop (i + 1))) := by
  induction cs with
  | nil => intro i k h; exact absurd h (by simp)
  | cons c rest ih =>
    intro i k h
    cases i with
    | zero =>
      simp only [List.take_zero, chunkBlocks, List.get, Nat.add_zero,
        List.drop_succ_cons, List.drop_zero, String.empty_append]
    | succ j =>
      have hj : j < rest.length := by simpa using h
      have e1 : k + 1 + j = k + (j + 1) := by omega
      calc chunkBlock k c ++ chunkBlocks (k + 1) rest
          = chunkBlock k c ++ (chunkBlocks (k + 1) (rest.take j) ++
              (chunkBlock (k + 1 + j) (rest.get ⟨j, hj⟩) ++
                chunkBlocks (k + 1 + j + 1) (rest.drop (j + 1)))) := by
            rw [ih j (k + 1) hj]
        _ = (chunkBlock k c ++ chunkBlocks (k + 1) (rest.take j)) ++
              (chunkBlock (k + (j + 1)) (rest.get ⟨j, hj⟩) ++
                chunkBlocks (k + (j + 1) + 1) (rest.drop (j + 1))) := by
            rw [e1, String.append_assoc]
        _ = chunkBlocks k ((c :: rest).take (j + 1)) ++
              (chunkBlock (k + (j + 1)) ((c :: rest).get ⟨j + 1, h⟩) ++
                chunkBlocks (k + (j + 1) + 1) ((c :: rest).drop (j + 1 + 1))) := by
            simp only [List.take_succ_cons, chunkBlocks, List.get, List.drop_succ_cons]

/-- C7: for every chunk in the sequence handed to the Prompt Builder, the
prompt decomposes as header, then the blocks of the earlier chunks in their
given order, then this chunk's labeled block, then the blocks of the later
chunks, then the closing — and the block itself carries the chunk's title,
date, two-decimal relevance score, and full text, in that order. -/
theorem prompt_chunk_blocks (topic length : String) (chunks : List SpeechChunk)
    (i : Nat) (h : i < chunks.length) :
    assemblePrompt topic chunks length =
      promptHeader chunks.length ++
        (chunkBlocks 1 (chunks.take i) ++
          (chunkBlock (1 + i) (chunks.get ⟨i, h⟩) ++
            (chunkBlocks (1 + i + 1) (chunks.drop (i + 1)) ++
              promptClosing topic length))) ∧
    ∃ b1 b2 b3 b4 b5, chunkBlock (1 + i) (chunks.get ⟨i, h⟩) =
      b1 ++ ((chunks.get ⟨i, h⟩).title ++ (b2 ++ ((chunks.get ⟨i, h⟩).date ++
        (b3 ++ (format2 (chunks.get ⟨i, h⟩).score ++
          (b4 ++ ((chunks.get ⟨i, h⟩).text ++ b5))))))) := by
  constructor
  · rw [assemblePrompt, chunkBlocks_split chunks i 1 h]
    simp only [String.append_assoc]
  · exact ⟨"\n--- Example " ++ (toString (1 + i) ++ ": \""), "\" (", ") [Relevance: ",
      "] ---\n", "\n\n", by simp only [chunkBlock, String.append_assoc]⟩

/-- Witness for C7: the spec's own scenario — two chunks scored 0.91 and 0.84,
length "short" — at the second chunk, together with the two-decimal rendering
of both scores. -/
theorem prompt_chunk_blocks_witness :
    (assemblePrompt "healthcare reform" [demoChunk, demoChunk2] "short" =
      promptHeader 2 ++
        (chunkBlocks 1 [demoChunk] ++
          (chunkBlock 2 demoChunk2 ++
            (chunkBlocks 3 [] ++ promptClosing "healthcare reform" "short")))) ∧
    (∃ b1 b2 b3 b4 b5, chunkBlock 2 demoChunk2 =
      b1 ++ (demoChunk2.title ++ (b2 ++ (demoChunk2.date ++
        (b3 ++ (format2 demoChunk2.score ++ (b4 ++ (demoChunk2.text ++ b5)))))))) ∧
    format2 (mkRat 91 100) = "0.91" ∧ format2 (mkRat 84 100) = "0.84" := by
  obtain ⟨h1, h2⟩ := prompt_chunk_blocks "healthcare reform" "short"
    [demoChunk, demoChunk2] 1 (by decide)
  exact ⟨h1, h2, by decide, by decide⟩

end ObamaSpeech
